import Mathlib

/-!
Verification of the binary WebSocket framing protocol and streaming session
controller of the doubao crate (crates/doubao/src/spec/tts/protocol.rs,
crates/doubao/src/asr/streaming.rs, crates/doubao/src/tts/speech.rs).

Modelling conventions:
- Rust byte slices and `Vec<u8>` are `List Nat` with entries below 256 where
  that matters; Rust strings (`&str`, `String`) are modelled by their UTF-8
  byte lists, so a `&str` argument is a `List Nat`.
- Machine integers are `Nat` / `Int` with explicit reductions modulo powers
  of two (`u32` casts are `% 2 ^ 32`, `i32` values carry range hypotheses).
- `serde_json::Value` is modelled by the inductive `Json`; its compact
  serializer (`Value::to_string`) and parser (`serde_json::from_slice`) are
  modelled by `Json.to_string` and `json_from_slice` for the JSON subset
  this protocol exchanges (integer numerals only, no surrogate-pair escapes).
- Fallible evaluation that may panic (Rust slice indexing) is modelled by
  `Except Unit` in the `_chk` variants of the decoders: `.error ()` stands
  for a panic / out-of-bounds access, `.ok` for a normal return.
- The asynchronous pump loops are modelled as functions over the list of
  inbound WebSocket items: each element is either a received message or a
  transport error; end of the list models the closed stream. Channels are
  FIFO lists, matching the one-producer one-consumer tokio mpsc queues.
- The `println!` / `tracing` side effects of the source are dropped: they do
  not affect any value or control flow modelled here.
-/

namespace Doubao

/-- Big-endian bytes of the low 32 bits of a natural number, as produced by
`u32::to_be_bytes`. -/
def be32 (n : Nat) : List Nat :=
  [n / 2 ^ 24 % 256, n / 2 ^ 16 % 256, n / 2 ^ 8 % 256, n % 256]

/-- The natural number denoted by four big-endian bytes, as read by
`u32::from_be_bytes`. -/
def u32FromBytes (b0 b1 b2 b3 : Nat) : Nat :=
  b0 * 2 ^ 24 + b1 * 2 ^ 16 + b2 * 2 ^ 8 + b3

/-- The signed 32-bit value denoted by four big-endian bytes, as read by
`i32::from_be_bytes` (two's complement). -/
def i32FromBytes (b0 b1 b2 b3 : Nat) : Int :=
  let n := u32FromBytes b0 b1 b2 b3
  if n < 2 ^ 31 then (n : Int) else (n : Int) - 2 ^ 32

/-- Big-endian two's-complement bytes of an `i32`, as produced by
`i32::to_be_bytes`. -/
def i32ToBeBytes (e : Int) : List Nat :=
  be32 (e % 2 ^ 32).toNat

/-- UTF-8 bytes of an ASCII string literal, used to spell byte lists. -/
def ascii (s : String) : List Nat :=
  s.data.map Char.toNat

/-- Model of `serde_json::Value`. Strings are their UTF-8 byte lists; object
fields keep their order; numbers are restricted to the integers (the protocol
payloads relevant here use none beyond that). -/
inductive Json where
  | null
  | bool (b : Bool)
  | num (n : Int)
  | str (s : List Nat)
  | arr (elems : List Json)
  | obj (fields : List (List Nat × Json))

/-- ASCII byte of a hexadecimal digit (lowercase), for escape sequences. -/
def hexDigit (n : Nat) : Nat :=
  if n < 10 then 48 + n else 87 + n

/-- Escaping of one byte inside a JSON string literal, per the serde_json
compact serializer: quote, backslash and control characters are escaped,
everything else passes through. -/
def escapeByte (b : Nat) : List Nat :=
  if b = 34 then [92, 34]
  else if b = 92 then [92, 92]
  else if b = 8 then [92, 98]
  else if b = 12 then [92, 102]
  else if b = 10 then [92, 110]
  else if b = 13 then [92, 114]
  else if b = 9 then [92, 116]
  else if b < 32 then [92, 117, 48, 48, hexDigit (b / 16), hexDigit (b % 16)]
  else [b]

/-- Decimal ASCII digits of a natural number. -/
def natDecimal (n : Nat) : List Nat :=
  (Nat.toDigits 10 n).map Char.toNat

/-- Decimal ASCII rendering of an integer. -/
def intDecimal (i : Int) : List Nat :=
  if i < 0 then 45 :: natDecimal i.natAbs else natDecimal i.toNat

mutual

/-- Model of the compact `serde_json::Value::to_string` serialization, as
bytes. Object fields are emitted in their list order. -/
def Json.to_string : Json → List Nat
  | .null => ascii "null"
  | .bool true => ascii "true"
  | .bool false => ascii "false"
  | .num n => intDecimal n
  | .str s => 34 :: (s.map escapeByte).flatten ++ [34]
  | .arr elems => 91 :: Json.arrBody elems ++ [93]
  | .obj fields => 123 :: Json.objBody fields ++ [125]

/-- Comma-separated serialization of array elements. -/
def Json.arrBody : List Json → List Nat
  | [] => []
  | [x] => Json.to_string x
  | x :: y :: rest => Json.to_string x ++ [44] ++ Json.arrBody (y :: rest)

/-- Comma-separated serialization of object fields. -/
def Json.objBody : List (List Nat × Json) → List Nat
  | [] => []
  | [(k, v)] => Json.to_string (.str k) ++ [58] ++ Json.to_string v
  | (k, v) :: kv :: rest =>
      Json.to_string (.str k) ++ [58] ++ Json.to_string v ++ [44] ++
        Json.objBody (kv :: rest)

end

/-- Skip JSON whitespace bytes. -/
def skipWs : List Nat → List Nat
  | b :: rest =>
      if b = 32 ∨ b = 9 ∨ b = 10 ∨ b = 13 then skipWs rest else b :: rest
  | [] => []

/-- Value of one hexadecimal ASCII digit. -/
def hexVal (b : Nat) : Option Nat :=
  if 48 ≤ b ∧ b ≤ 57 then some (b - 48)
  else if 97 ≤ b ∧ b ≤ 102 then some (b - 87)
  else if 65 ≤ b ∧ b ≤ 70 then some (b - 55)
  else none

/-- UTF-8 encoding of a code point below 2 ^ 16 (surrogate pairs are outside
the modelled subset). -/
def utf8Encode (c : Nat) : List Nat :=
  if c < 128 then [c]
  else if c < 2048 then [192 + c / 64, 128 + c % 64]
  else [224 + c / 4096, 128 + c / 64 % 64, 128 + c % 64]

/-- Decode one escape sequence after a backslash inside a JSON string:
returns the produced bytes and the remaining input. -/
def unescape1 : List Nat → Option (List Nat × List Nat)
  | 34 :: r => some ([34], r)
  | 92 :: r => some ([92], r)
  | 47 :: r => some ([47], r)
  | 98 :: r => some ([8], r)
  | 102 :: r => some ([12], r)
  | 110 :: r => some ([10], r)
  | 114 :: r => some ([13], r)
  | 116 :: r => some ([9], r)
  | 117 :: h1 :: h2 :: h3 :: h4 :: r => do
      let d1 ← hexVal h1
      let d2 ← hexVal h2
      let d3 ← hexVal h3
      let d4 ← hexVal h4
      some (utf8Encode (((d1 * 16 + d2) * 16 + d3) * 16 + d4), r)
  | _ => none

/-- Parse the body of a JSON string after the opening quote: returns the
decoded bytes and the input after the closing quote. -/
def parseStringBody : Nat → List Nat → Option (List Nat × List Nat)
  | 0, _ => none
  | _ + 1, [] => none
  | _ + 1, 34 :: rest => some ([], rest)
  | fuel + 1, 92 :: rest => do
      let (bs, r) ← unescape1 rest
      let (tail, r2) ← parseStringBody fuel r
      some (bs ++ tail, r2)
  | fuel + 1, b :: rest =>
      if b < 32 then none
      else do
        let (tail, r2) ← parseStringBody fuel rest
        some (b :: tail, r2)

/-- Take a maximal run of decimal digit bytes. -/
def takeDigits : List Nat → List Nat × List Nat
  | b :: rest =>
      if 48 ≤ b ∧ b ≤ 57 then
        let (ds, r) := takeDigits rest
        (b :: ds, r)
      else ([], b :: rest)
  | [] => ([], [])

/-- Natural number denoted by a run of decimal digit bytes. -/
def digitsToNat (ds : List Nat) : Nat :=
  ds.foldl (fun acc d => acc * 10 + (d - 48)) 0

/-- Parse a JSON integer numeral (fractions and exponents are outside the
modelled subset and rejected). -/
def parseNumber (s : List Nat) : Option (Json × List Nat) :=
  match s with
  | 45 :: rest =>
      match takeDigits rest with
      | ([], _) => none
      | (ds, r) =>
          match r with
          | 46 :: _ => none
          | 101 :: _ => none
          | 69 :: _ => none
          | _ => some (.num (-(digitsToNat ds : Int)), r)
  | _ =>
      match takeDigits s with
      | ([], _) => none
      | (ds, r) =>
          match r with
          | 46 :: _ => none
          | 101 :: _ => none
          | 69 :: _ => none
          | _ => some (.num (digitsToNat ds), r)

mutual

/-- Recursive-descent JSON value parser (fuel-indexed), modelling
`serde_json::from_slice` on the subset described at `Json`. -/
def parseValue : Nat → List Nat → Option (Json × List Nat)
  | 0, _ => none
  | fuel + 1, s =>
      match skipWs s with
      | 110 :: 117 :: 108 :: 108 :: r => some (.null, r)
      | 116 :: 114 :: 117 :: 101 :: r => some (.bool true, r)
      | 102 :: 97 :: 108 :: 115 :: 101 :: r => some (.bool false, r)
      | 34 :: r => (parseStringBody (r.length + 1) r).map fun p => (.str p.1, p.2)
      | 91 :: r => parseArrayRest fuel r
      | 123 :: r => parseObjRest fuel r
      | s2 => parseNumber s2

/-- Parse the remainder of a JSON array after the opening bracket. -/
def parseArrayRest : Nat → List Nat → Option (Json × List Nat)
  | 0, _ => none
  | fuel + 1, s =>
      match skipWs s with
      | 93 :: r => some (.arr [], r)
      | s2 => do
          let (v, r) ← parseValue fuel s2
          parseArrayTail fuel [v] r

/-- Parse further comma-separated array elements until the closing bracket. -/
def parseArrayTail : Nat → List Json → List Nat → Option (Json × List Nat)
  | 0, _, _ => none
  | fuel + 1, acc, s =>
      match skipWs s with
      | 44 :: r => do
          let (v, r2) ← parseValue fuel r
          parseArrayTail fuel (acc ++ [v]) r2
      | 93 :: r => some (.arr acc, r)
      | _ => none

/-- Parse one key-value pair of a JSON object. -/
def parsePair : Nat → List Nat → Option ((List Nat × Json) × List Nat)
  | 0, _ => none
  | fuel + 1, s =>
      match skipWs s with
      | 34 :: r => do
          let (k, r2) ← parseStringBody (r.length + 1) r
          match skipWs r2 with
          | 58 :: r3 => do
              let (v, r4) ← parseValue fuel r3
              some ((k, v), r4)
          | _ => none
      | _ => none

/-- Parse the remainder of a JSON object after the opening brace. -/
def parseObjRest : Nat → List Nat → Option (Json × List Nat)
  | 0, _ => none
  | fuel + 1, s =>
      match skipWs s with
      | 125 :: r => some (.obj [], r)
      | s2 => do
          let (kv, r) ← parsePair fuel s2
          parseObjTail fuel [kv] r

/-- Parse further comma-separated object fields until the closing brace. -/
def parseObjTail : Nat → List (List Nat × Json) → List Nat →
    Option (Json × List Nat)
  | 0, _, _ => none
  | fuel + 1, acc, s =>
      match skipWs s with
      | 44 :: r => do
          let (kv, r2) ← parsePair fuel r
          parseObjTail fuel (acc ++ [kv]) r2
      | 125 :: r => some (.obj acc, r)
      | _ => none

end

/-- Model of `serde_json::from_slice::<Value>`: parse one value and require
that only whitespace remains. -/
def json_from_slice (s : List Nat) : Option Json :=
  match parseValue (s.length + 2) s with
  | some (j, rest) => if skipWs rest = [] then some j else none
  | none => none

/-- Model of `serde_json::Value` bracket indexing `value[key]`: field lookup
on objects, `Null` on a missing key or a non-object. -/
def Json.index (j : Json) (key : List Nat) : Json :=
  match j with
  | .obj fields =>
      match fields.lookup key with
      | some v => v
      | none => .null
  | _ => .null

/-- Model of `serde_json::Value::get(key)`: `some` field value on objects,
`none` on a missing key or a non-object. -/
def Json.get (j : Json) (key : List Nat) : Option Json :=
  match j with
  | .obj fields => fields.lookup key
  | _ => none

/-- Model of `Value::as_str`. -/
def Json.as_str : Json → Option (List Nat)
  | .str s => some s
  | _ => none

/-- Model of `Value::as_bool`. -/
def Json.as_bool : Json → Option Bool
  | .bool b => some b
  | _ => none

/-- Utterance-level result (spec/asr.rs `AsrUtterance`). Only the text field
is modelled: the streaming decoder never constructs an utterance (it always
produces an empty list), so the remaining fields are irrelevant here. -/
structure AsrUtterance where
  text : List Nat

/-- Recognition result (spec/asr.rs `AsrResult`). -/
structure AsrResult where
  text : List Nat
  utterances : List AsrUtterance
  additions : Option Json

/-- Streaming recognition result (spec/asr.rs `StreamingAsrResult`). -/
structure StreamingAsrResult where
  session_id : List Nat
  result : AsrResult
  is_final : Bool

/-- Protocol version byte (spec/tts/protocol.rs, spec/asr/protocol.rs). -/
def PROTOCOL_VERSION : Nat := 0x11

/-- Message type: full client request (0x14). -/
def MSG_TYPE_FULL_CLIENT : Nat := 0x14

/-- Message type: full server response (0x94). -/
def MSG_TYPE_FULL_SERVER : Nat := 0x94

/-- Message type: audio-only server response (0xB4). -/
def MSG_TYPE_AUDIO_ONLY : Nat := 0xB4

/-- Message type: audio-only client request (0x24, asr/protocol.rs
`STREAMING_MSG_AUDIO_ONLY_CLIENT`). -/
def STREAMING_MSG_AUDIO_ONLY_CLIENT : Nat := 0x24

/-- Serialization method: JSON (high nibble 1). -/
def SERIALIZATION_JSON : Nat := 0x10

/-- No compression. -/
def NO_COMPRESSION : Nat := 0x00

/-- Reserved header byte. -/
def RESERVED : Nat := 0x00

/-- Event: start connection. -/
def EVENT_START_CONNECTION : Int := 1

/-- Event: finish connection. -/
def EVENT_FINISH_CONNECTION : Int := 2

/-- Event: connection started (server response). -/
def EVENT_CONNECTION_STARTED : Int := 50

/-- Event: connection failed (server response, asr/protocol.rs
`STREAMING_EVENT_CONNECTION_FAILED`). -/
def STREAMING_EVENT_CONNECTION_FAILED : Int := 51

/-- Event: start session. -/
def EVENT_START_SESSION : Int := 100

/-- Event: finish session. -/
def EVENT_FINISH_SESSION : Int := 102

/-- Event: session started (server response). -/
def EVENT_SESSION_STARTED : Int := 150

/-- Event: session finished (server response). -/
def EVENT_SESSION_FINISHED : Int := 152

/-- Event: session failed (server response, asr/protocol.rs
`STREAMING_EVENT_SESSION_FAILED`). -/
def STREAMING_EVENT_SESSION_FAILED : Int := 153

/-- Event: task request. -/
def EVENT_TASK_REQUEST : Int := 200

/-- Event: TTS sentence start. -/
def EVENT_TTS_SENTENCE_START : Int := 350

/-- Event: TTS sentence end. -/
def EVENT_TTS_SENTENCE_END : Int := 351

/-- Event: TTS response carrying audio. -/
def EVENT_TTS_RESPONSE : Int := 352

/-- Event: streaming ASR result (asr/protocol.rs
`STREAMING_EVENT_ASR_RESULT`). -/
def STREAMING_EVENT_ASR_RESULT : Int := 350

/-- Build a full-client event frame: header, big-endian event, optional
length-prefixed session id, length-prefixed serialized JSON payload
(spec/tts/protocol.rs `build_event_frame`; asr/streaming.rs has a
byte-identical copy). The `as u32` casts on lengths are the `% 2 ^ 32`. -/
def build_event_frame (event : Int) (session_id : Option (List Nat))
    (payload : Json) : List Nat :=
  let header := [PROTOCOL_VERSION, MSG_TYPE_FULL_CLIENT,
    SERIALIZATION_JSON ||| NO_COMPRESSION, RESERVED]
  let sidPart :=
    match session_id with
    | some sid => be32 (sid.length % 2 ^ 32) ++ sid
    | none => []
  let payload_bytes := payload.to_string
  header ++ i32ToBeBytes event ++ sidPart ++
    be32 (payload_bytes.length % 2 ^ 32) ++ payload_bytes

/-- Build an audio-only client frame tagged with the task-request event
(asr/streaming.rs `build_audio_frame`). -/
def build_audio_frame (session_id : List Nat) (audio_data : List Nat) :
    List Nat :=
  let header := [PROTOCOL_VERSION, STREAMING_MSG_AUDIO_ONLY_CLIENT,
    SERIALIZATION_JSON ||| NO_COMPRESSION, RESERVED]
  header ++ i32ToBeBytes EVENT_TASK_REQUEST ++
    be32 (session_id.length % 2 ^ 32) ++ session_id ++
    be32 (audio_data.length % 2 ^ 32) ++ audio_data

/-- Parse the event number from a binary frame (spec/tts/protocol.rs
`parse_event`; asr/streaming.rs has a byte-identical copy). -/
def parse_event (data : List Nat) : Option Int :=
  if data.length < 8 then none
  else some (i32FromBytes (data.getD 4 0) (data.getD 5 0) (data.getD 6 0)
    (data.getD 7 0))

/-- Extract audio data from an audio-only response frame
(spec/tts/protocol.rs `extract_audio_from_frame`). Note that the source
skips the four payload-size bytes without reading them and returns every
remaining byte. -/
def extract_audio_from_frame (data : List Nat) : Option (List Nat) :=
  if data.length < 4 then none
  else
    let msg_type := data.getD 1 0
    if msg_type = MSG_TYPE_AUDIO_ONLY then
      if data.length < 12 then none
      else
        let session_id_len := u32FromBytes (data.getD 8 0) (data.getD 9 0)
          (data.getD 10 0) (data.getD 11 0)
        let audio_offset := 12 + session_id_len + 4
        if data.length > audio_offset then some (data.drop audio_offset)
        else none
    else none

/-- Parse an ASR result from a binary frame (asr/streaming.rs
`parse_asr_result`). -/
def parse_asr_result (data : List Nat) (session_id : List Nat) :
    Option StreamingAsrResult :=
  if data.length < 12 then none
  else
    let session_id_len := u32FromBytes (data.getD 8 0) (data.getD 9 0)
      (data.getD 10 0) (data.getD 11 0)
    let payload_offset := 12 + session_id_len
    if data.length < payload_offset + 4 then none
    else
      let payload_len := u32FromBytes (data.getD payload_offset 0)
        (data.getD (payload_offset + 1) 0) (data.getD (payload_offset + 2) 0)
        (data.getD (payload_offset + 3) 0)
      let payload_start := payload_offset + 4
      if data.length < payload_start + payload_len then none
      else
        let payload_bytes := (data.drop payload_start).take payload_len
        match json_from_slice payload_bytes with
        | none => none
        | some payload =>
            let result : AsrResult :=
              { text := (((payload.index (ascii "result")).index
                  (ascii "text")).as_str).getD []
                utterances := []
                additions := payload.get (ascii "additions") }
            let is_final := (((payload.index (ascii "result")).index
              (ascii "definite")).as_bool).getD false
            some { session_id := session_id, result := result,
                   is_final := is_final }

/-- Checked read of `data[i]`: models a Rust slice index, panicking (the
`.error` branch) when out of bounds. -/
def sliceIndex (data : List Nat) (i : Nat) : Except Unit Nat :=
  match data.get? i with
  | some b => .ok b
  | none => .error ()

/-- Checked `&data[a..]`: panics when `a` exceeds the slice length. -/
def sliceFrom (data : List Nat) (a : Nat) : Except Unit (List Nat) :=
  if a ≤ data.length then .ok (data.drop a) else .error ()

/-- Checked `&data[a..b]`: panics unless `a ≤ b ≤ data.len()`. -/
def sliceRange (data : List Nat) (a b : Nat) : Except Unit (List Nat) :=
  if a ≤ b ∧ b ≤ data.length then .ok ((data.drop a).take (b - a))
  else .error ()

/-- `parse_event` with panic-modelling slice reads: every index the source
dereferences goes through `sliceIndex`, and any failed read aborts the whole
evaluation with the panic value. -/
def parse_event_chk (data : List Nat) : Except Unit (Option Int) :=
  if data.length < 8 then .ok none
  else
    match sliceIndex data 4, sliceIndex data 5, sliceIndex data 6,
        sliceIndex data 7 with
    | .ok b4, .ok b5, .ok b6, .ok b7 =>
        .ok (some (i32FromBytes b4 b5 b6 b7))
    | _, _, _, _ => .error ()

/-- `extract_audio_from_frame` with panic-modelling slice accesses. -/
def extract_audio_from_frame_chk (data : List Nat) :
    Except Unit (Option (List Nat)) :=
  if data.length < 4 then .ok none
  else
    match sliceIndex data 1 with
    | .error e => .error e
    | .ok msg_type =>
      if msg_type = MSG_TYPE_AUDIO_ONLY then
        if data.length < 12 then .ok none
        else
          match sliceIndex data 8, sliceIndex data 9, sliceIndex data 10,
              sliceIndex data 11 with
          | .ok b8, .ok b9, .ok b10, .ok b11 =>
            let session_id_len := u32FromBytes b8 b9 b10 b11
            let audio_offset := 12 + session_id_len + 4
            if data.length > audio_offset then
              match sliceFrom data audio_offset with
              | .ok audio => .ok (some audio)
              | .error e => .error e
            else .ok none
          | _, _, _, _ => .error ()
      else .ok none

/-- `parse_asr_result` with panic-modelling slice accesses. -/
def parse_asr_result_chk (data : List Nat) (session_id : List Nat) :
    Except Unit (Option StreamingAsrResult) :=
  if data.length < 12 then .ok none
  else
    match sliceIndex data 8, sliceIndex data 9, sliceIndex data 10,
        sliceIndex data 11 with
    | .ok b8, .ok b9, .ok b10, .ok b11 =>
      let session_id_len := u32FromBytes b8 b9 b10 b11
      let payload_offset := 12 + session_id_len
      if data.length < payload_offset + 4 then .ok none
      else
        match sliceIndex data payload_offset,
            sliceIndex data (payload_offset + 1),
            sliceIndex data (payload_offset + 2),
            sliceIndex data (payload_offset + 3) with
        | .ok c0, .ok c1, .ok c2, .ok c3 =>
          let payload_len := u32FromBytes c0 c1 c2 c3
          let payload_start := payload_offset + 4
          if data.length < payload_start + payload_len then .ok none
          else
            match sliceRange data payload_start
                (payload_start + payload_len) with
            | .error e => .error e
            | .ok payload_bytes =>
              match json_from_slice payload_bytes with
              | none => .ok none
              | some payload =>
                  let result : AsrResult :=
                    { text := (((payload.index (ascii "result")).index
                        (ascii "text")).as_str).getD []
                      utterances := []
                      additions := payload.get (ascii "additions") }
                  let is_final := (((payload.index (ascii "result")).index
                    (ascii "definite")).as_bool).getD false
                  .ok (some { session_id := session_id, result := result,
                              is_final := is_final })
        | _, _, _, _ => .error ()
    | _, _, _, _ => .error ()

/-- The session-id length a frame declares at offsets 8 to 11. -/
def declaredSidLen (data : List Nat) : Nat :=
  u32FromBytes (data.getD 8 0) (data.getD 9 0) (data.getD 10 0)
    (data.getD 11 0)

/-- The payload length a frame declares right after its session-id field. -/
def declaredPayloadLen (data : List Nat) : Nat :=
  let payload_offset := 12 + declaredSidLen data
  u32FromBytes (data.getD payload_offset 0) (data.getD (payload_offset + 1) 0)
    (data.getD (payload_offset + 2) 0) (data.getD (payload_offset + 3) 0)

/-- A server-to-client frame laid out per the wire format of spec section 6:
header, big-endian event, length-prefixed session id, length-prefixed
payload. Used only to quantify theorems over well-laid-out inbound frames. -/
def mkServerFrame (msg_type : Nat) (event : Int) (sid payload : List Nat) :
    List Nat :=
  [PROTOCOL_VERSION, msg_type, SERIALIZATION_JSON, RESERVED] ++
    i32ToBeBytes event ++ be32 (sid.length % 2 ^ 32) ++ sid ++
    be32 (payload.length % 2 ^ 32) ++ payload

/-- Force the message-type byte at offset 1 to the audio-only-server value,
as the audio round-trip property statement prescribes. -/
def forceAudioOnlyServer (data : List Nat) : List Nat :=
  data.set 1 MSG_TYPE_AUDIO_ONLY

/-- Model of the `DoubaoError` variants the streaming paths construct. -/
inductive DoubaoError where
  | WebSocket
  | Protocol (msg : String)
  | EventNotReceived (expected : Int)
  | Session (msg : String)
deriving DecidableEq

/-- One WebSocket message, as delivered by tungstenite. -/
inductive WsMessage where
  | binary (data : List Nat)
  | text (s : List Nat)
  | ping (data : List Nat)
  | pong (data : List Nat)
  | close
  | frame
deriving DecidableEq

/-- One item yielded by `read.next()`: a received message (`Some(Ok(m))`) or
a transport error (`Some(Err(e))`). The end of the item list models the
stream yielding `None`. -/
inductive InboundItem where
  | msg (m : WsMessage)
  | failure
deriving DecidableEq

/-- Model of `wait_for_event` (asr/streaming.rs; tts/speech.rs has the same
control flow modulo debug printing): scan inbound items for a binary frame
whose parsed event equals the expected one, skipping everything else;
a transport error is returned as it is; a stream end yields
`EventNotReceived`. Returns the unconsumed remainder of the stream. -/
def wait_for_event (items : List InboundItem) (expected_event : Int) :
    Except DoubaoError (List InboundItem) :=
  match items with
  | [] => .error (.EventNotReceived expected_event)
  | .failure :: _ => .error .WebSocket
  | .msg m :: rest =>
    match m with
    | .binary data =>
        match parse_event data with
        | some e =>
            if e = expected_event then .ok rest
            else wait_for_event rest expected_event
        | none => wait_for_event rest expected_event
    | _ => wait_for_event rest expected_event

/-- Whether `wait_for_event`, awaiting `expected`, passes over this inbound
item without returning: true for any received message except a binary frame
parsing to the expected event; false for transport errors. -/
def skipsFor (expected : Int) : InboundItem → Bool
  | .failure => false
  | .msg (.binary d) => parse_event d ≠ some expected
  | .msg _ => true

/-- The read branch of the ASR background pump (asr/streaming.rs, the
`read.next()` arm of the select loop): walks inbound items in order; an
event-350 binary frame that decodes is published to the result channel; a
session-finished frame makes the pump send a finish-connection frame and
stop; a close message or stream end stops it; everything else (including
transport errors, ping, pong, text) is ignored by the `_` arms. Returns the
FIFO list of published results and the frames the branch writes. The write
branch of the select loop only forwards caller audio to the socket and never
touches the result channel, so it is not modelled here. -/
def asrReadLoop (session_id : List Nat) :
    List InboundItem → List StreamingAsrResult × List (List Nat)
  | [] => ([], [])
  | .failure :: rest => asrReadLoop session_id rest
  | .msg m :: rest =>
    match m with
    | .binary data =>
        match parse_event data with
        | some e =>
            if e = STREAMING_EVENT_ASR_RESULT then
              match parse_asr_result data session_id with
              | some r =>
                  let (rs, fs) := asrReadLoop session_id rest
                  (r :: rs, fs)
              | none => asrReadLoop session_id rest
            else if e = EVENT_SESSION_FINISHED then
              ([], [build_event_frame EVENT_FINISH_CONNECTION none (.obj [])])
            else asrReadLoop session_id rest
        | none => asrReadLoop session_id rest
    | .close => ([], [])
    | _ => asrReadLoop session_id rest

/-- The caller-facing ASR session handle (asr/streaming.rs
`StreamingSession`): the session id and the result channel, modelled as the
FIFO list of results the pump publishes. -/
structure StreamingSession where
  session_id : List Nat
  result_rx : List StreamingAsrResult

/-- Model of `StreamingSession::recv`: pop the next result from the FIFO
result channel, `none` when the channel is exhausted. -/
def StreamingSession.recv (s : StreamingSession) :
    Option StreamingAsrResult × StreamingSession :=
  match s.result_rx with
  | [] => (none, s)
  | r :: rest => (some r, { s with result_rx := rest })

/-- Model of `StreamingSession::close` (asr/streaming.rs lines 249 to 253):
the source body is empty apart from comments, so the call changes no state
and writes no frame. The returned list is the frames the call causes to be
written to the socket. -/
def StreamingSession.close (s : StreamingSession) :
    StreamingSession × List (List Nat) :=
  (s, [])

/-- Model of `StreamingSession::new` (asr/streaming.rs): send StartConnection,
await ConnectionStarted, send StartSession tagged with the client-generated
session id, await SessionStarted, then hand the remaining inbound stream to
the spawned pump and return the handle. The session id, user id and the
config-derived StartSession payload are parameters standing for the values
the source generates from `uuid` and `config`. Returns the frames the
handshake writes and the result of the call. -/
def streamingSessionNew (items : List InboundItem) (session_id : List Nat)
    (session_payload : Json) :
    List (List Nat) × Except DoubaoError StreamingSession :=
  let f_start_conn := build_event_frame EVENT_START_CONNECTION none (.obj [])
  match wait_for_event items EVENT_CONNECTION_STARTED with
  | .error e => ([f_start_conn], .error e)
  | .ok rest1 =>
    let f_start_session :=
      build_event_frame EVENT_START_SESSION (some session_id) session_payload
    match wait_for_event rest1 EVENT_SESSION_STARTED with
    | .error e => ([f_start_conn, f_start_session], .error e)
    | .ok rest2 =>
        ([f_start_conn, f_start_session],
         .ok { session_id := session_id,
               result_rx := (asrReadLoop session_id rest2).1 })

/-- The audio receive loop of `Speech::create` (tts/speech.rs step 4):
accumulates extracted audio from sentence and response frames; stops on a
session-finished frame, a close, a ping, a pong or stream end; fails on a
transport error or a binary frame shorter than 8 bytes that passed the
4-byte guard (`parse_event` returns `None` there and the source raises a
protocol error). Note the source breaks out of the loop on ping and pong. -/
def ttsRecvLoop : List InboundItem → List Nat → Except DoubaoError (List Nat)
  | [], audio => .ok audio
  | .failure :: _, _ => .error .WebSocket
  | .msg m :: rest, audio =>
    match m with
    | .binary data =>
        if data.length < 4 then ttsRecvLoop rest audio
        else
          match parse_event data with
          | none => .error (.Protocol "invalid frame")
          | some e =>
              if e = EVENT_TTS_RESPONSE ∨ e = EVENT_TTS_SENTENCE_START ∨
                  e = EVENT_TTS_SENTENCE_END then
                match extract_audio_from_frame data with
                | some a => ttsRecvLoop rest (audio ++ a)
                | none => ttsRecvLoop rest audio
              else if e = EVENT_SESSION_FINISHED then .ok audio
              else ttsRecvLoop rest audio
    | .text _ => ttsRecvLoop rest audio
    | .close => .ok audio
    | .ping _ => .ok audio
    | .pong _ => .ok audio
    | .frame => ttsRecvLoop rest audio

/-- Model of `Speech::create` (tts/speech.rs): the frames written to the
socket, in order, and the overall outcome. After SessionStarted the source
sends a frame built with `EVENT_SESSION_FINISHED` (152), then runs the
receive loop, then sends FinishSession and FinishConnection; the
TaskRequest payload it builds is never framed or sent. The session id, user
id and the serialized StartSession payload are parameters standing for the
generated values. -/
def speechCreate (items : List InboundItem) (session_id : List Nat)
    (start_session_payload : Json) :
    List (List Nat) × Except DoubaoError (List Nat) :=
  let f_start_conn := build_event_frame EVENT_START_CONNECTION none (.obj [])
  match wait_for_event items EVENT_CONNECTION_STARTED with
  | .error e => ([f_start_conn], .error e)
  | .ok rest1 =>
    let f_start_session := build_event_frame EVENT_START_SESSION
      (some session_id) start_session_payload
    match wait_for_event rest1 EVENT_SESSION_STARTED with
    | .error e => ([f_start_conn, f_start_session], .error e)
    | .ok rest2 =>
      let f_end_session :=
        build_event_frame EVENT_SESSION_FINISHED (some session_id) (.obj [])
      match ttsRecvLoop rest2 [] with
      | .error e =>
          ([f_start_conn, f_start_session, f_end_session], .error e)
      | .ok audio =>
          let f_finish_session := build_event_frame EVENT_FINISH_SESSION
            (some session_id) (.obj [])
          let f_finish_conn :=
            build_event_frame EVENT_FINISH_CONNECTION none (.obj [])
          ([f_start_conn, f_start_session, f_end_session, f_finish_session,
            f_finish_conn], .ok audio)

/-! Helper lemmas. -/

theorem u32FromBytes_split (n : Nat) :
    u32FromBytes (n / 2 ^ 24 % 256) (n / 2 ^ 16 % 256) (n / 2 ^ 8 % 256)
      (n % 256) = n % 2 ^ 32 := by
  unfold u32FromBytes
  omega

theorem parse_event_cons8 (x0 x1 x2 x3 x4 x5 x6 x7 : Nat) (rest : List Nat) :
    parse_event (x0 :: x1 :: x2 :: x3 :: x4 :: x5 :: x6 :: x7 :: rest) =
      some (i32FromBytes x4 x5 x6 x7) := by
  have h : ¬ (x0 :: x1 :: x2 :: x3 :: x4 :: x5 :: x6 :: x7 :: rest).length
      < 8 := by
    simp only [List.length_cons]
    omega
  simp [parse_event, h, List.getD_cons_succ, List.getD_cons_zero]

theorem i32_roundtrip (e : Int) (h1 : -(2 ^ 31) ≤ e) (h2 : e < 2 ^ 31) :
    i32FromBytes ((e % 2 ^ 32).toNat / 2 ^ 24 % 256)
      ((e % 2 ^ 32).toNat / 2 ^ 16 % 256)
      ((e % 2 ^ 32).toNat / 2 ^ 8 % 256)
      ((e % 2 ^ 32).toNat % 256) = e := by
  unfold i32FromBytes
  rw [u32FromBytes_split]
  dsimp only
  split <;> omega

theorem parse_event_build_event_frame (e : Int) (sid : Option (List Nat))
    (p : Json) (h1 : -(2 ^ 31) ≤ e) (h2 : e < 2 ^ 31) :
    parse_event (build_event_frame e sid p) = some e := by
  have hfr : build_event_frame e sid p =
      PROTOCOL_VERSION :: MSG_TYPE_FULL_CLIENT ::
      (SERIALIZATION_JSON ||| NO_COMPRESSION) :: RESERVED ::
      (e % 2 ^ 32).toNat / 2 ^ 24 % 256 ::
      (e % 2 ^ 32).toNat / 2 ^ 16 % 256 ::
      (e % 2 ^ 32).toNat / 2 ^ 8 % 256 ::
      (e % 2 ^ 32).toNat % 256 ::
      ((match sid with
        | some s => be32 (s.length % 2 ^ 32) ++ s
        | none => []) ++
        (be32 (p.to_string.length % 2 ^ 32) ++ p.to_string)) := by
    simp [build_event_frame, i32ToBeBytes, be32, List.append_assoc]
  rw [hfr, parse_event_cons8, i32_roundtrip e h1 h2]

theorem get?_eq_some_getD (data : List Nat) (i : Nat) (h : i < data.length) :
    data.get? i = some (data.getD i 0) := by
  cases hg : data.get? i with
  | none =>
      rw [List.get?_eq_none] at hg
      omega
  | some b =>
      simp [List.getD_eq_getElem?_getD, ← List.get?_eq_getElem?, hg]

theorem sliceIndex_eq (data : List Nat) (i : Nat) (h : i < data.length) :
    sliceIndex data i = .ok (data.getD i 0) := by
  unfold sliceIndex
  rw [get?_eq_some_getD data i h]

theorem sliceFrom_eq (data : List Nat) (a : Nat) (h : a ≤ data.length) :
    sliceFrom data a = .ok (data.drop a) := by
  unfold sliceFrom
  rw [if_pos h]

theorem sliceRange_eq (data : List Nat) (a b : Nat) (h1 : a ≤ b)
    (h2 : b ≤ data.length) :
    sliceRange data a b = .ok ((data.drop a).take (b - a)) := by
  unfold sliceRange
  rw [if_pos ⟨h1, h2⟩]

theorem parse_event_chk_eq (data : List Nat) :
    parse_event_chk data = .ok (parse_event data) := by
  unfold parse_event_chk parse_event
  by_cases h : data.length < 8
  · rw [if_pos h, if_pos h]
  · rw [if_neg h, if_neg h, sliceIndex_eq data 4 (by omega),
        sliceIndex_eq data 5 (by omega), sliceIndex_eq data 6 (by omega),
        sliceIndex_eq data 7 (by omega)]

theorem extract_audio_chk_eq (data : List Nat) :
    extract_audio_from_frame_chk data = .ok (extract_audio_from_frame data) := by
  unfold extract_audio_from_frame_chk extract_audio_from_frame
  by_cases h4 : data.length < 4
  · rw [if_pos h4, if_pos h4]
  · rw [if_neg h4, if_neg h4, sliceIndex_eq data 1 (by omega)]
    dsimp only
    by_cases hm : data.getD 1 0 = MSG_TYPE_AUDIO_ONLY
    · rw [if_pos hm, if_pos hm]
      by_cases h12 : data.length < 12
      · rw [if_pos h12, if_pos h12]
      · rw [if_neg h12, if_neg h12, sliceIndex_eq data 8 (by omega),
            sliceIndex_eq data 9 (by omega), sliceIndex_eq data 10 (by omega),
            sliceIndex_eq data 11 (by omega)]
        dsimp only
        by_cases hoff : data.length >
            12 + u32FromBytes (data.getD 8 0) (data.getD 9 0) (data.getD 10 0)
              (data.getD 11 0) + 4
        · rw [if_pos hoff, if_pos hoff, sliceFrom_eq data _ (by omega)]
        · rw [if_neg hoff, if_neg hoff]
    · rw [if_neg hm, if_neg hm]

theorem parse_asr_chk_eq (data : List Nat) (sid : List Nat) :
    parse_asr_result_chk data sid = .ok (parse_asr_result data sid) := by
  unfold parse_asr_result_chk parse_asr_result
  by_cases h12 : data.length < 12
  · rw [if_pos h12, if_pos h12]
  · rw [if_neg h12, if_neg h12, sliceIndex_eq data 8 (by omega),
        sliceIndex_eq data 9 (by omega), sliceIndex_eq data 10 (by omega),
        sliceIndex_eq data 11 (by omega)]
    dsimp only
    set L := u32FromBytes (data.getD 8 0) (data.getD 9 0) (data.getD 10 0)
      (data.getD 11 0) with hL
    by_cases hp4 : data.length < 12 + L + 4
    · rw [if_pos hp4, if_pos hp4]
    · rw [if_neg hp4, if_neg hp4, sliceIndex_eq data (12 + L) (by omega),
          sliceIndex_eq data (12 + L + 1) (by omega),
          sliceIndex_eq data (12 + L + 2) (by omega),
          sliceIndex_eq data (12 + L + 3) (by omega)]
      dsimp only
      set P := u32FromBytes (data.getD (12 + L) 0) (data.getD (12 + L + 1) 0)
        (data.getD (12 + L + 2) 0) (data.getD (12 + L + 3) 0) with hP
      by_cases hpl : data.length < 12 + L + 4 + P
      · rw [if_pos hpl, if_pos hpl]
      · rw [if_neg hpl, if_neg hpl,
            sliceRange_eq data (12 + L + 4) (12 + L + 4 + P) (by omega)
              (by omega)]
        have harg : 12 + L + 4 + P - (12 + L + 4) = P := by omega
        rw [harg]
        dsimp only
        cases hj : json_from_slice (List.take P (List.drop (12 + L + 4) data))
        all_goals rfl

/-- C1 (amended): all three frame decoders run without panicking or reading
out of bounds on every input (the checked evaluations return normally and
agree with the decoders), every input shorter than the 8-byte header is
rejected with `None`, and a declared session-id length exceeding the bytes
remaining makes both `extract_audio_from_frame` and `parse_asr_result`
return `None`; a declared payload length exceeding the bytes remaining makes
`parse_asr_result` return `None`. The original claim also asserted the
payload-length rejection for `decode_audio_payload`
(`extract_audio_from_frame`), which the code does not do — see the
counterexample. -/
theorem c1_decoders_reject_malformed :
    (∀ data : List Nat, parse_event_chk data = .ok (parse_event data)) ∧
    (∀ data : List Nat,
      extract_audio_from_frame_chk data = .ok (extract_audio_from_frame data)) ∧
    (∀ data sid : List Nat,
      parse_asr_result_chk data sid = .ok (parse_asr_result data sid)) ∧
    (∀ data : List Nat, data.length < 8 →
      parse_event data = none ∧ extract_audio_from_frame data = none ∧
        ∀ sid : List Nat, parse_asr_result data sid = none) ∧
    (∀ data : List Nat, data.length < 12 + declaredSidLen data + 4 →
      extract_audio_from_frame data = none ∧
        ∀ sid : List Nat, parse_asr_result data sid = none) ∧
    (∀ data sid : List Nat,
      data.length < 12 + declaredSidLen data + 4 + declaredPayloadLen data →
      parse_asr_result data sid = none) := by
  refine ⟨parse_event_chk_eq, extract_audio_chk_eq, parse_asr_chk_eq,
    ?_, ?_, ?_⟩
  · intro data h
    refine ⟨?_, ?_, ?_⟩
    · unfold parse_event
      rw [if_pos h]
    · unfold extract_audio_from_frame
      dsimp only
      split_ifs <;> first | rfl | omega
    · intro sid
      unfold parse_asr_result
      rw [if_pos (by omega)]
  · intro data h
    constructor
    · unfold extract_audio_from_frame
      unfold declaredSidLen at h
      dsimp only
      split_ifs <;> first | rfl | omega
    · intro sid
      unfold parse_asr_result
      unfold declaredSidLen at h
      dsimp only
      split_ifs <;> first | rfl | omega
  · intro data sid h
    unfold parse_asr_result
    simp only [declaredSidLen, declaredPayloadLen] at h
    dsimp only
    split_ifs <;> first | rfl | omega

/-- C1 witness: the theorem applied at concrete malformed inputs. The
7-byte input is below the 8-byte header; the 13-byte input declares a
session id of 100 bytes with only 1 byte remaining; the 17-byte input
declares a payload of 100 bytes with only 1 byte remaining. -/
theorem c1_decoders_reject_malformed_witness :
    parse_event [17, 148, 16, 0, 0, 0, 1] = none ∧
    extract_audio_from_frame
      [17, 180, 16, 0, 0, 0, 1, 94, 0, 0, 0, 100, 7] = none ∧
    parse_asr_result
      [17, 148, 16, 0, 0, 0, 1, 94, 0, 0, 0, 0, 0, 0, 0, 100, 66] [] =
      none := by
  refine ⟨(c1_decoders_reject_malformed.2.2.2.1
    [17, 148, 16, 0, 0, 0, 1] (by decide)).1, ?_, ?_⟩
  · exact (c1_decoders_reject_malformed.2.2.2.2.1
      [17, 180, 16, 0, 0, 0, 1, 94, 0, 0, 0, 100, 7] (by decide)).1
  · exact c1_decoders_reject_malformed.2.2.2.2.2
      [17, 148, 16, 0, 0, 0, 1, 94, 0, 0, 0, 0, 0, 0, 0, 100, 66] []
      (by decide)

/-- C1 counterexample: a 17-byte audio-only frame whose declared payload
length (100) far exceeds the single byte remaining after the length field,
yet `extract_audio_from_frame` returns that byte instead of `None`: the
function never reads the payload-length field it skips. -/
theorem c1_extract_ignores_payload_len_counterexample :
    extract_audio_from_frame
      [17, 180, 16, 0, 0, 0, 1, 96, 0, 0, 0, 0, 0, 0, 0, 100, 66] =
      some [66] ∧
    declaredPayloadLen
      [17, 180, 16, 0, 0, 0, 1, 96, 0, 0, 0, 0, 0, 0, 0, 100, 66] = 100 ∧
    (17 : Nat) < 12 + declaredSidLen
      [17, 180, 16, 0, 0, 0, 1, 96, 0, 0, 0, 0, 0, 0, 0, 100, 66] + 4 +
      declaredPayloadLen
        [17, 180, 16, 0, 0, 0, 1, 96, 0, 0, 0, 0, 0, 0, 0, 100, 66] := by
  refine ⟨by decide, by decide, by decide⟩

/-- C2: for every i32 event code, optional session id and JSON payload,
parsing the event field of the frame built by the event-frame encoder
returns exactly that event code. -/
theorem c2_event_roundtrip (e : Int) (sid : Option (List Nat)) (p : Json)
    (h1 : -(2 ^ 31) ≤ e) (h2 : e < 2 ^ 31) :
    parse_event (build_event_frame e sid p) = some e :=
  parse_event_build_event_frame e sid p h1 h2

/-- C2 witness: the round trip applied at event 100, session id "abc" and
the empty-object payload. -/
theorem c2_event_roundtrip_witness :
    parse_event (build_event_frame 100 (some (ascii "abc")) (.obj [])) =
      some 100 :=
  c2_event_roundtrip 100 (some (ascii "abc")) (.obj []) (by norm_num)
    (by norm_num)

theorem drop_length_append (l t : List Nat) (n : Nat) :
    (l ++ t).drop (l.length + n) = t.drop n := by
  induction l with
  | nil => simp
  | cons x xs ih =>
      have h : (x :: xs).length + n = (xs.length + n) + 1 := by
        simp only [List.length_cons]
        omega
      rw [h]
      simp only [List.cons_append, List.drop_succ_cons]
      exact ih

theorem getD_length_append (l t : List Nat) (n d : Nat) :
    (l ++ t).getD (l.length + n) d = t.getD n d := by
  rw [List.getD_append_right l t d (l.length + n) (by omega)]
  congr 1
  omega

theorem extract_audio_layout (pre sid l4 audio : List Nat)
    (hpre : pre.length = 12) (hmt : pre.getD 1 0 = MSG_TYPE_AUDIO_ONLY)
    (hsl : u32FromBytes (pre.getD 8 0) (pre.getD 9 0) (pre.getD 10 0)
      (pre.getD 11 0) = sid.length)
    (hl4 : l4.length = 4) (h1 : audio ≠ []) :
    extract_audio_from_frame (pre ++ (sid ++ (l4 ++ audio))) = some audio := by
  have hne : 0 < audio.length := List.length_pos.mpr h1
  have hlen : (pre ++ (sid ++ (l4 ++ audio))).length =
      16 + sid.length + audio.length := by
    simp only [List.length_append, hpre, hl4]
    omega
  unfold extract_audio_from_frame
  dsimp only
  rw [hlen, List.getD_append pre _ 0 1 (by omega), hmt,
      List.getD_append pre _ 0 8 (by omega),
      List.getD_append pre _ 0 9 (by omega),
      List.getD_append pre _ 0 10 (by omega),
      List.getD_append pre _ 0 11 (by omega), hsl,
      if_neg (by omega), if_pos rfl, if_neg (by omega), if_pos (by omega)]
  have e1 : 12 + sid.length + 4 = pre.length + (sid.length + 4) := by
    omega
  rw [e1, drop_length_append]
  have e2 : sid.length + 4 = sid.length + 4 := rfl
  rw [drop_length_append sid _ 4]
  have e3 : (4 : Nat) = l4.length + 0 := by omega
  rw [e3, drop_length_append, List.drop_zero]

/-- C3 (amended): for every session id of u32-representable byte length and
every NONEMPTY audio byte sequence, encoding with `build_audio_frame` and
decoding with `extract_audio_from_frame` (after forcing the message type at
offset 1 to audio-only-server) recovers exactly the audio bytes. The
original claim quantified over every byte sequence, but the decoder returns
`None` when no byte remains after the payload-length field, so the empty
audio sequence does not round-trip — see the counterexample. -/
theorem c3_audio_roundtrip_amended (sid audio : List Nat) (h1 : audio ≠ [])
    (h2 : sid.length < 2 ^ 32) :
    extract_audio_from_frame
      (forceAudioOnlyServer (build_audio_frame sid audio)) = some audio := by
  have hforce : forceAudioOnlyServer (build_audio_frame sid audio) =
      ([PROTOCOL_VERSION, MSG_TYPE_AUDIO_ONLY,
        SERIALIZATION_JSON ||| NO_COMPRESSION, RESERVED] ++
        i32ToBeBytes EVENT_TASK_REQUEST ++ be32 (sid.length % 2 ^ 32)) ++
      (sid ++ (be32 (audio.length % 2 ^ 32) ++ audio)) := by
    simp [forceAudioOnlyServer, build_audio_frame, be32, i32ToBeBytes,
      List.append_assoc]
  rw [hforce]
  apply extract_audio_layout
  · simp [be32, i32ToBeBytes]
  · simp [be32, i32ToBeBytes, List.getD_cons_succ, List.getD_cons_zero]
  · have hgd :
        (([PROTOCOL_VERSION, MSG_TYPE_AUDIO_ONLY,
          SERIALIZATION_JSON ||| NO_COMPRESSION, RESERVED] ++
          i32ToBeBytes EVENT_TASK_REQUEST ++ be32 (sid.length % 2 ^ 32)) :
          List Nat).drop 8 = be32 (sid.length % 2 ^ 32) := by
      simp [be32, i32ToBeBytes]
    rw [show (8 : Nat) = 8 + 0 from rfl]
    simp only [List.getD_cons_succ, List.getD_cons_zero, be32, i32ToBeBytes,
      List.cons_append, List.nil_append]
    rw [u32FromBytes_split]
    omega
  · simp [be32]
  · exact h1

/-- C3 counterexample: with an empty audio payload the encoded frame, forced
to audio-only-server, decodes to `None` rather than to the empty byte
sequence the round-trip claim requires. -/
theorem c3_empty_audio_counterexample :
    extract_audio_from_frame
      (forceAudioOnlyServer (build_audio_frame [115] [])) = none := by
  decide

/-- C3 witness: the amended round trip applied at session id byte 115 and
audio [7]. -/
theorem c3_audio_roundtrip_amended_witness :
    extract_audio_from_frame
      (forceAudioOnlyServer (build_audio_frame [115] [7])) = some [7] :=
  c3_audio_roundtrip_amended [115] [7] (by decide) (by decide)

theorem parse_asr_layout (pre sid pb sid2 : List Nat)
    (hpre : pre.length = 12)
    (hsl : u32FromBytes (pre.getD 8 0) (pre.getD 9 0) (pre.getD 10 0)
      (pre.getD 11 0) = sid.length)
    (hpb : pb.length < 2 ^ 32) :
    parse_asr_result (pre ++ (sid ++ (be32 pb.length ++ pb))) sid2 =
      match json_from_slice pb with
      | none => none
      | some payload =>
          some { session_id := sid2,
                 result :=
                   { text := (((payload.index (ascii "result")).index
                       (ascii "text")).as_str).getD []
                     utterances := []
                     additions := payload.get (ascii "additions") }
                 is_final := (((payload.index (ascii "result")).index
                   (ascii "definite")).as_bool).getD false } := by
  have hlen : (pre ++ (sid ++ (be32 pb.length ++ pb))).length =
      16 + sid.length + pb.length := by
    simp only [List.length_append, hpre, be32, List.length_cons,
      List.length_nil]
    omega
  have g0 : (pre ++ (sid ++ (be32 pb.length ++ pb))).getD
      (12 + sid.length) 0 = pb.length / 2 ^ 24 % 256 := by
    have e : 12 + sid.length = pre.length + (sid.length + 0) := by omega
    rw [e, getD_length_append, getD_length_append]
    simp [be32]
  have g1 : (pre ++ (sid ++ (be32 pb.length ++ pb))).getD
      (12 + sid.length + 1) 0 = pb.length / 2 ^ 16 % 256 := by
    have e : 12 + sid.length + 1 = pre.length + (sid.length + 1) := by omega
    rw [e, getD_length_append, getD_length_append]
    simp [be32]
  have g2 : (pre ++ (sid ++ (be32 pb.length ++ pb))).getD
      (12 + sid.length + 2) 0 = pb.length / 2 ^ 8 % 256 := by
    have e : 12 + sid.length + 2 = pre.length + (sid.length + 2) := by omega
    rw [e, getD_length_append, getD_length_append]
    simp [be32]
  have g3 : (pre ++ (sid ++ (be32 pb.length ++ pb))).getD
      (12 + sid.length + 3) 0 = pb.length % 256 := by
    have e : 12 + sid.length + 3 = pre.length + (sid.length + 3) := by omega
    rw [e, getD_length_append, getD_length_append]
    simp [be32]
  have hdrop : (pre ++ (sid ++ (be32 pb.length ++ pb))).drop
      (12 + sid.length + 4) = pb := by
    have e : 12 + sid.length + 4 = pre.length + (sid.length + 4) := by omega
    rw [e, drop_length_append, drop_length_append sid _ 4]
    simp [be32]
  unfold parse_asr_result
  dsimp only
  rw [hlen, List.getD_append pre _ 0 8 (by omega),
      List.getD_append pre _ 0 9 (by omega),
      List.getD_append pre _ 0 10 (by omega),
      List.getD_append pre _ 0 11 (by omega), hsl,
      if_neg (by omega), if_neg (by omega), g0, g1, g2, g3,
      u32FromBytes_split, Nat.mod_eq_of_lt hpb, if_neg (by omega), hdrop,
      List.take_of_length_le (by omega)]

/-- C4 (amended): for every frame laid out with consistent length fields,
`parse_asr_result` parses the payload as JSON; if the payload is not valid
JSON it returns `None`; if the payload is valid JSON it ALWAYS returns
`Some`, mapping `result.text` into the text and `result.definite` into the
final flag, and substituting the empty string and `false` when those fields
are missing or have the wrong type. The original claim said a structural
mismatch of the `\x7bresult: \x7btext, definite\x7d\x7d` shape yields
`None`; the code instead yields defaults — see the counterexample. -/
theorem c4_result_mapping (sid pb sid2 : List Nat) (ev : Int)
    (hs : sid.length < 2 ^ 32) (hp : pb.length < 2 ^ 32) :
    parse_asr_result (mkServerFrame MSG_TYPE_FULL_SERVER ev sid pb) sid2 =
      match json_from_slice pb with
      | none => none
      | some payload =>
          some { session_id := sid2,
                 result :=
                   { text := (((payload.index (ascii "result")).index
                       (ascii "text")).as_str).getD []
                     utterances := []
                     additions := payload.get (ascii "additions") }
                 is_final := (((payload.index (ascii "result")).index
                   (ascii "definite")).as_bool).getD false } := by
  have hmk : mkServerFrame MSG_TYPE_FULL_SERVER ev sid pb =
      ([PROTOCOL_VERSION, MSG_TYPE_FULL_SERVER, SERIALIZATION_JSON,
        RESERVED] ++ i32ToBeBytes ev ++ be32 sid.length) ++
      (sid ++ (be32 pb.length ++ pb)) := by
    unfold mkServerFrame
    rw [Nat.mod_eq_of_lt hs, Nat.mod_eq_of_lt hp]
    simp [List.append_assoc]
  rw [hmk]
  apply parse_asr_layout
  · simp [be32, i32ToBeBytes]
  · rw [show (8 : Nat) = 8 + 0 from rfl]
    simp only [List.getD_cons_succ, List.getD_cons_zero, be32, i32ToBeBytes,
      List.cons_append, List.nil_append]
    rw [u32FromBytes_split]
    omega
  · exact hp

/-- C4 counterexample: a well-laid-out frame whose payload is the valid JSON
object with no fields at all — a structural mismatch of the expected
result shape — decodes to `Some` with defaulted fields, not to `None`. -/
theorem c4_shape_mismatch_counterexample :
    json_from_slice [123, 125] = some (Json.obj []) ∧
    parse_asr_result (mkServerFrame MSG_TYPE_FULL_SERVER 350 [] [123, 125])
      [97] =
      some { session_id := [97],
             result := { text := [], utterances := [], additions := none },
             is_final := false } := by
  exact ⟨rfl, rfl⟩

/-- C4 witness: the mapping theorem applied at a frame whose payload is the
JSON object with result.text "hi" and result.definite true. -/
theorem c4_result_mapping_witness :
    parse_asr_result
      (mkServerFrame MSG_TYPE_FULL_SERVER 350 [115]
        ([123] ++ ascii "\"result\":" ++ [123] ++
          ascii "\"text\":\"hi\",\"definite\":true" ++ [125, 125])) [97] =
      some { session_id := [97],
             result := { text := ascii "hi", utterances := [],
                         additions := none }
             is_final := true } := by
  rw [c4_result_mapping [115]
    ([123] ++ ascii "\"result\":" ++ [123] ++
      ascii "\"text\":\"hi\",\"definite\":true" ++ [125, 125]) [97] 350
    (by decide) (by decide)]
  rfl

theorem wait_for_event_skips (noise : List InboundItem) (e : Int)
    (d : List Nat) (rest : List InboundItem)
    (hn : ∀ x ∈ noise, skipsFor e x = true) (hd : parse_event d = some e) :
    wait_for_event (noise ++ (.msg (.binary d) :: rest)) e = .ok rest := by
  induction noise with
  | nil =>
      simp only [List.nil_append]
      unfold wait_for_event
      dsimp only
      rw [hd]
      dsimp only
      rw [if_pos rfl]
  | cons x xs ih =>
      have hx : skipsFor e x = true := hn x (List.mem_cons_self x xs)
      have hxs : ∀ y ∈ xs, skipsFor e y = true := fun y hy =>
        hn y (List.mem_cons_of_mem x hy)
      cases x with
      | failure => simp [skipsFor] at hx
      | msg m =>
          cases m with
          | binary d2 =>
              have hne : parse_event d2 ≠ some e := by
                simpa [skipsFor] using hx
              simp only [List.cons_append]
              unfold wait_for_event
              dsimp only
              cases hp : parse_event d2 with
              | none => exact ih hxs
              | some e2 =>
                  have he2 : ¬ e2 = e := fun h => hne (by rw [hp, h])
                  dsimp only
                  rw [if_neg he2]
                  exact ih hxs
          | text s =>
              simp only [List.cons_append]
              unfold wait_for_event
              exact ih hxs
          | ping p =>
              simp only [List.cons_append]
              unfold wait_for_event
              exact ih hxs
          | pong p =>
              simp only [List.cons_append]
              unfold wait_for_event
              exact ih hxs
          | close =>
              simp only [List.cons_append]
              unfold wait_for_event
              exact ih hxs
          | frame =>
              simp only [List.cons_append]
              unfold wait_for_event
              exact ih hxs

/-- C5: for every inbound sequence in which a ConnectionStarted frame
eventually answers StartConnection and a SessionStarted frame eventually
answers StartSession — with arbitrary ignorable noise (non-binary messages
or binary frames of other events) interleaved before each awaited
acknowledgement — session creation sends exactly StartConnection then
StartSession tagged with the client session id, and returns `Ok` with a
handle carrying that session id. -/
theorem c5_open_handshake (noise1 noise2 rest : List InboundItem)
    (d50 d150 sid : List Nat) (payload : Json)
    (h1 : ∀ x ∈ noise1, skipsFor EVENT_CONNECTION_STARTED x = true)
    (h50 : parse_event d50 = some EVENT_CONNECTION_STARTED)
    (h2 : ∀ x ∈ noise2, skipsFor EVENT_SESSION_STARTED x = true)
    (h150 : parse_event d150 = some EVENT_SESSION_STARTED) :
    (streamingSessionNew
      (noise1 ++ (.msg (.binary d50) ::
        (noise2 ++ (.msg (.binary d150) :: rest)))) sid payload).1 =
      [build_event_frame EVENT_START_CONNECTION none (.obj []),
       build_event_frame EVENT_START_SESSION (some sid) payload] ∧
    ∃ s, (streamingSessionNew
      (noise1 ++ (.msg (.binary d50) ::
        (noise2 ++ (.msg (.binary d150) :: rest)))) sid payload).2 =
        .ok s ∧ s.session_id = sid := by
  unfold streamingSessionNew
  rw [wait_for_event_skips noise1 EVENT_CONNECTION_STARTED d50 _ h1 h50]
  dsimp only
  rw [wait_for_event_skips noise2 EVENT_SESSION_STARTED d150 _ h2 h150]
  exact ⟨rfl, _, rfl, rfl⟩

/-- C5 witness: the handshake theorem applied with a ping and an unrelated
event-51 frame interleaved as noise around the two acknowledgements. -/
theorem c5_open_handshake_witness :
    (streamingSessionNew
      ([.msg (.ping [1])] ++ (.msg (.binary [17, 148, 16, 0, 0, 0, 0, 50]) ::
        ([.msg (.binary [17, 148, 16, 0, 0, 0, 0, 51])] ++
          (.msg (.binary [17, 148, 16, 0, 0, 0, 0, 150]) :: []))))
      [97] (.obj [])).1 =
      [build_event_frame EVENT_START_CONNECTION none (.obj []),
       build_event_frame EVENT_START_SESSION (some [97]) (.obj [])] ∧
    ∃ s, (streamingSessionNew
      ([.msg (.ping [1])] ++ (.msg (.binary [17, 148, 16, 0, 0, 0, 0, 50]) ::
        ([.msg (.binary [17, 148, 16, 0, 0, 0, 0, 51])] ++
          (.msg (.binary [17, 148, 16, 0, 0, 0, 0, 150]) :: []))))
      [97] (.obj [])).2 = .ok s ∧ s.session_id = [97] :=
  c5_open_handshake [.msg (.ping [1])]
    [.msg (.binary [17, 148, 16, 0, 0, 0, 0, 51])] []
    [17, 148, 16, 0, 0, 0, 0, 50] [17, 148, 16, 0, 0, 0, 0, 150] [97]
    (.obj []) (by decide) (by decide) (by decide) (by decide)

/-- C6 (amended): a ConnectionFailed (51) frame received while
ConnectionStarted is awaited, and a SessionFailed (153) frame received while
SessionStarted is awaited, are skipped exactly like any unrelated frame: the
handshake keeps waiting past the failure frame, and an error
(`EventNotReceived`) surfaces only when the inbound stream ends without the
awaited event. The original claim said the failure frame itself stops the
wait and fails the handshake — see the counterexample, where open succeeds
from an acknowledgement delivered AFTER the failure frame. -/
theorem c6_failure_events_skipped :
    (∀ (d : List Nat) (rest : List InboundItem),
      parse_event d = some STREAMING_EVENT_CONNECTION_FAILED →
      wait_for_event (.msg (.binary d) :: rest) EVENT_CONNECTION_STARTED =
        wait_for_event rest EVENT_CONNECTION_STARTED) ∧
    (∀ (d : List Nat) (rest : List InboundItem),
      parse_event d = some STREAMING_EVENT_SESSION_FAILED →
      wait_for_event (.msg (.binary d) :: rest) EVENT_SESSION_STARTED =
        wait_for_event rest EVENT_SESSION_STARTED) ∧
    (∀ e : Int, wait_for_event [] e = .error (.EventNotReceived e)) := by
  refine ⟨?_, ?_, fun e => rfl⟩
  · intro d rest hd
    conv_lhs => rw [wait_for_event.eq_def]
    dsimp only
    rw [hd]
    dsimp only
    rw [if_neg (by decide)]
  · intro d rest hd
    conv_lhs => rw [wait_for_event.eq_def]
    dsimp only
    rw [hd]
    dsimp only
    rw [if_neg (by decide)]

/-- C6 witness: the amended theorem applied at a concrete ConnectionFailed
frame. -/
theorem c6_failure_events_skipped_witness :
    wait_for_event [.msg (.binary [17, 148, 16, 0, 0, 0, 0, 51])]
      EVENT_CONNECTION_STARTED =
      wait_for_event [] EVENT_CONNECTION_STARTED :=
  c6_failure_events_skipped.1 [17, 148, 16, 0, 0, 0, 0, 51] [] (by decide)

/-- C6 counterexample: with a ConnectionFailed (51) frame followed by a
ConnectionStarted (50) frame, the wait for ConnectionStarted consumes past
the failure frame and SUCCEEDS, so the handshake does not transition to a
failed state when the failure frame arrives, contradicting the claim. -/
theorem c6_counterexample :
    parse_event [17, 148, 16, 0, 0, 0, 0, 51] =
      some STREAMING_EVENT_CONNECTION_FAILED ∧
    wait_for_event
      [.msg (.binary [17, 148, 16, 0, 0, 0, 0, 51]),
       .msg (.binary [17, 148, 16, 0, 0, 0, 0, 50])]
      EVENT_CONNECTION_STARTED = .ok [] :=
  ⟨by decide, rfl⟩

/-- C7: a sequence of well-formed event-350 result frames delivered to the
active session pump in order is published to the result channel as exactly
the corresponding decoded results, in the same order, with nothing missing,
duplicated or reordered; the FIFO channel hands them to `recv` in that
order. -/
theorem c7_results_in_order (sid : List Nat) (ds : List (List Nat))
    (rs : List StreamingAsrResult)
    (h1 : ∀ d ∈ ds, parse_event d = some STREAMING_EVENT_ASR_RESULT)
    (h2 : ds.map (fun d => parse_asr_result d sid) = rs.map some) :
    (asrReadLoop sid (ds.map (fun d => .msg (.binary d)))).1 = rs := by
  induction ds generalizing rs with
  | nil =>
      cases rs with
      | nil => rfl
      | cons r rs2 => simp at h2
  | cons d ds2 ih =>
      cases rs with
      | nil => simp at h2
      | cons r rs2 =>
          simp only [List.map_cons, List.cons.injEq] at h2
          obtain ⟨hh, ht⟩ := h2
          have hd : parse_event d = some STREAMING_EVENT_ASR_RESULT :=
            h1 d (List.mem_cons_self d ds2)
          have h1r : ∀ x ∈ ds2,
              parse_event x = some STREAMING_EVENT_ASR_RESULT := fun x hx =>
            h1 x (List.mem_cons_of_mem d hx)
          simp only [List.map_cons]
          unfold asrReadLoop
          dsimp only
          rw [hd]
          dsimp only
          rw [hh]
          dsimp only
          cases hrec : asrReadLoop sid
            (ds2.map (fun d => InboundItem.msg (WsMessage.binary d))) with
          | mk a b =>
              have hihr := ih rs2 h1r ht
              rw [hrec] at hihr
              dsimp only at hihr ⊢
              rw [hihr, if_pos rfl]

/-- C7 witness: two concrete result frames decode and are published in
order. -/
theorem c7_results_in_order_witness :
    (asrReadLoop [97] (List.map (fun d => InboundItem.msg (.binary d))
      [mkServerFrame MSG_TYPE_FULL_SERVER 350 [] [123, 125],
       mkServerFrame MSG_TYPE_FULL_SERVER 350 []
         ([123] ++ ascii "\"result\":" ++ [123] ++
           ascii "\"definite\":true" ++ [125, 125])])).1 =
      [{ session_id := [97],
         result := { text := [], utterances := [], additions := none },
         is_final := false },
       { session_id := [97],
         result := { text := [], utterances := [], additions := none },
         is_final := true }] :=
  c7_results_in_order [97]
    [mkServerFrame MSG_TYPE_FULL_SERVER 350 [] [123, 125],
     mkServerFrame MSG_TYPE_FULL_SERVER 350 []
       ([123] ++ ascii "\"result\":" ++ [123] ++
         ascii "\"definite\":true" ++ [125, 125])]
    [{ session_id := [97],
       result := { text := [], utterances := [], additions := none },
       is_final := false },
     { session_id := [97],
       result := { text := [], utterances := [], additions := none },
       is_final := true }]
    (by decide) (by rfl)

/-- C8: `StreamingSession::close` has an empty body: calling it changes no
session state and causes no frame to be written, so it does not signal
end-of-input and never triggers the session-finish or connection-finish
frames — contradicting the claim and the documentation comment on the
method itself. -/
theorem c8_close_is_noop (s : StreamingSession) :
    StreamingSession.close s = (s, []) := rfl

/-- C9: the ASR pump treats ping and pong as transparent keepalive, but the
TTS receive loop of `Speech::create` breaks out of the loop on a ping or a
pong: at the concrete input where a ping precedes an audio frame, the loop
stops with no audio collected, while without the ping it collects the
audio — so a keepalive ping terminates the TTS session. -/
theorem c9_ping_terminates_tts_loop :
    (∀ (sid p : List Nat) (rest : List InboundItem),
      asrReadLoop sid (.msg (.ping p) :: rest) = asrReadLoop sid rest) ∧
    (∀ (p audio : List Nat) (rest : List InboundItem),
      ttsRecvLoop (.msg (.ping p) :: rest) audio = .ok audio ∧
      ttsRecvLoop (.msg (.pong p) :: rest) audio = .ok audio) ∧
    ttsRecvLoop
      [.msg (.ping []),
       .msg (.binary (mkServerFrame MSG_TYPE_AUDIO_ONLY 352 [] [1, 2, 3]))]
      [] = .ok [] ∧
    ttsRecvLoop
      [.msg (.binary (mkServerFrame MSG_TYPE_AUDIO_ONLY 352 [] [1, 2, 3]))]
      [] = .ok [1, 2, 3] :=
  ⟨fun _ _ _ => rfl, fun _ _ _ => ⟨rfl, rfl⟩, rfl, rfl⟩

/-- C10: in every execution of `Speech::create`, no frame written to the
socket is tagged with the TaskRequest event (200) — the task payload built
from the synthesis text is never transmitted — and in every execution whose
handshake completes, the frame written immediately after SessionStarted is
received (the third frame sent) is tagged with the SessionFinished event
code (152). -/
theorem c10_tts_sends_152_never_200 (items : List InboundItem)
    (sid : List Nat) (payload : Json) :
    (∀ f ∈ (speechCreate items sid payload).1,
      parse_event f ≠ some EVENT_TASK_REQUEST) ∧
    (∀ rest1 rest2 : List InboundItem,
      wait_for_event items EVENT_CONNECTION_STARTED = .ok rest1 →
      wait_for_event rest1 EVENT_SESSION_STARTED = .ok rest2 →
      (speechCreate items sid payload).1.getD 2 [] =
        build_event_frame EVENT_SESSION_FINISHED (some sid) (.obj [])) := by
  have hp1 : parse_event (build_event_frame EVENT_START_CONNECTION none
      (.obj [])) = some EVENT_START_CONNECTION :=
    parse_event_build_event_frame _ _ _ (by decide) (by decide)
  have hp100 : parse_event (build_event_frame EVENT_START_SESSION (some sid)
      payload) = some EVENT_START_SESSION :=
    parse_event_build_event_frame _ _ _ (by decide) (by decide)
  have hp152 : parse_event (build_event_frame EVENT_SESSION_FINISHED
      (some sid) (.obj [])) = some EVENT_SESSION_FINISHED :=
    parse_event_build_event_frame _ _ _ (by decide) (by decide)
  have hp102 : parse_event (build_event_frame EVENT_FINISH_SESSION (some sid)
      (.obj [])) = some EVENT_FINISH_SESSION :=
    parse_event_build_event_frame _ _ _ (by decide) (by decide)
  have hp2 : parse_event (build_event_frame EVENT_FINISH_CONNECTION none
      (.obj [])) = some EVENT_FINISH_CONNECTION :=
    parse_event_build_event_frame _ _ _ (by decide) (by decide)
  unfold speechCreate
  cases h1 : wait_for_event items EVENT_CONNECTION_STARTED with
  | error e =>
      dsimp only
      constructor
      · intro f hf
        simp only [List.mem_singleton] at hf
        subst hf
        rw [hp1]
        decide
      · intro rest1 rest2 hw1
        cases hw1
  | ok rest1x =>
      dsimp only
      cases h2 : wait_for_event rest1x EVENT_SESSION_STARTED with
      | error e =>
          dsimp only
          constructor
          · intro f hf
            simp only [List.mem_cons, List.not_mem_nil, or_false] at hf
            rcases hf with hf | hf <;> subst hf
            · rw [hp1]
              decide
            · rw [hp100]
              decide
          · intro rest1 rest2 hw1 hw2
            injection hw1 with hre
            subst hre
            rw [h2] at hw2
            exact Except.noConfusion hw2
      | ok rest2x =>
          dsimp only
          cases h3 : ttsRecvLoop rest2x [] with
          | error e =>
              dsimp only
              constructor
              · intro f hf
                simp only [List.mem_cons, List.not_mem_nil, or_false] at hf
                rcases hf with hf | hf | hf <;> subst hf
                · rw [hp1]
                  decide
                · rw [hp100]
                  decide
                · rw [hp152]
                  decide
              · intro rest1 rest2 hw1 hw2
                rfl
          | ok audio =>
              dsimp only
              constructor
              · intro f hf
                simp only [List.mem_cons, List.not_mem_nil, or_false] at hf
                rcases hf with hf | hf | hf | hf | hf <;> subst hf
                · rw [hp1]
                  decide
                · rw [hp100]
                  decide
                · rw [hp152]
                  decide
                · rw [hp102]
                  decide
                · rw [hp2]
                  decide
              · intro rest1 rest2 hw1 hw2
                rfl

/-- C10 witness: a run whose handshake completes from two acknowledgement
frames; the third frame sent is the event-152 frame and no sent frame is a
TaskRequest. -/
theorem c10_tts_sends_152_never_200_witness :
    (speechCreate
      [.msg (.binary [17, 148, 16, 0, 0, 0, 0, 50]),
       .msg (.binary [17, 148, 16, 0, 0, 0, 0, 150])]
      [97] (.obj [])).1.getD 2 [] =
      build_event_frame EVENT_SESSION_FINISHED (some [97]) (.obj []) :=
  (c10_tts_sends_152_never_200
    [.msg (.binary [17, 148, 16, 0, 0, 0, 0, 50]),
     .msg (.binary [17, 148, 16, 0, 0, 0, 0, 150])]
    [97] (.obj [])).2
    [.msg (.binary [17, 148, 16, 0, 0, 0, 0, 150])] [] rfl rfl

end Doubao
